import Mathlib

/-!
# Programme Tracker — Authorization & Scoping Engine: shallow embedding

A shallow embedding in Lean 4 of the core of the `programme-tracker`
backend (FastAPI/SQLAlchemy), covering:

* the data model (`models.py`, `schemas.py`): users, programmes,
  programme updates;
* the Token Service (`core/security.py`): `JWTManager`, token
  creation/verification, modelled with perfect cryptography (a signed
  token records the key it was signed with, and decoding with a key
  succeeds exactly when that key matches);
* the Identity Resolver (`deps.py`): `get_current_user`;
* the Scope Engine and Activity Ledger (`crud.py`): `get_programmes`,
  `update_programme`, `create_programme_update`, `get_programme_updates`;
* the login endpoint (`api/auth.py`) and programme endpoints
  (`api/programmes.py`).

Database tables are embedded as in-memory lists; SQLAlchemy queries as
list filters; time as natural-number seconds since an arbitrary epoch;
UUIDs as natural numbers, with `uuid.UUID(str)` modelled by a decimal
parse (`uuidParse`): a string that does not denote an id fails to
parse, which models the `ValueError` raised by `uuid.UUID` on a
non-UUID string.  Python truthiness of an `Optional[str]` is `none` and
the empty string falsy, everything else truthy.
-/

namespace ProgrammeTracker

/-- UUIDs (`uuid.UUID`) are modelled as naturals. -/
abbrev UUID := Nat

/-- Value of a decimal digit character (code points 48–57); `none` on
anything else. -/
def charDigit (c : Char) : Option Nat :=
  if 48 ≤ c.toNat ∧ c.toNat ≤ 57 then some (c.toNat - 48) else none

/-- Accumulating decimal parse of a character list; `none` as soon as a
non-digit appears. -/
def digitsVal : List Char → Option Nat → Option Nat
  | [], acc => acc
  | c :: cs, acc =>
    match charDigit c, acc with
    | some d, some n => digitsVal cs (some (n * 10 + d))
    | _, _ => none

/-- Models `uuid.UUID(s)` applied to a string: `some u` when the string
is the (decimal) rendering of an id, `none` when `uuid.UUID` would
raise `ValueError` (any string containing a character the id syntax
does not admit, or the empty string). -/
def uuidParse (s : String) : Option UUID :=
  match s.data with
  | [] => none
  | cs => digitsVal cs (some 0)

/-- Models `str(u)` applied to a `uuid.UUID`. -/
def uuidToString (u : UUID) : String := toString u

/-- Python truthiness of an `Optional[str]` value: `None` and `""` are
falsy, every other string truthy. -/
def strTruthy : Option String → Bool
  | none => false
  | some s => !s.isEmpty

/-- `schemas.AttachmentSchema` / the JSON attachment objects. -/
structure AttachmentSchema where
  file_key : String
  file_name : String
  file_type : String
  file_size : Nat
deriving Repr, DecidableEq

/-- `models.User` (the columns the core reads; timestamps other than
identity-irrelevant bookkeeping are omitted). -/
structure User where
  id : UUID
  username : String
  password_hash : String
  name : String
  role : String                  -- admin, district, division
  active : Bool
  district_id : Option UUID
  division_id : Option UUID
deriving Repr, DecidableEq

/-- `schemas.UserRead` (the fields the engine consults after identity
resolution). -/
structure UserRead where
  id : UUID
  username : String
  name : String
  role : String
  active : Bool
  district_id : Option UUID
  division_id : Option UUID
deriving Repr, DecidableEq

/-- `UserRead.model_validate(user)`: projecting a row to the read schema. -/
def toUserRead (u : User) : UserRead :=
  { id := u.id, username := u.username, name := u.name, role := u.role,
    active := u.active, district_id := u.district_id, division_id := u.division_id }

/-- `models.Programme`.  Nullable columns are `Option`; the
PostgreSQL `ARRAY(UUID)` columns are `Option (List UUID)` (`none` is SQL
NULL).  `created_at`/`last_updated_at` bookkeeping is kept as plain
naturals. -/
structure Programme where
  id : UUID
  title : String
  description : Option String
  created_by_user : UUID
  created_at : Nat
  due_date : Option Nat
  priority : String              -- low, medium, high, critical
  portfolio_id : Option UUID
  frequency : String             -- one-time, weekly, ...
  scope : String                 -- district, all_divisions, specific_list
  assigned_districts : Option (List UUID)
  assigned_divisions : Option (List UUID)
  status : String                -- received, assigned, in_progress, completed, blocked
  is_active : Bool
  remarks : Option String
  attachments : List AttachmentSchema
deriving Repr, DecidableEq

/-- `models.ProgrammeUpdate`: an activity-feed row. -/
structure ProgrammeUpdateRow where
  id : UUID
  programme_id : UUID
  user_id : UUID
  type : String                  -- status_change, comment, attachment
  content : Option String
  attachments : List AttachmentSchema
  created_at : Nat
deriving Repr, DecidableEq

/-- `models.District` (only the columns the closure needs). -/
structure District where
  id : UUID
  name : String
deriving Repr, DecidableEq

/-- `models.Division`. -/
structure Division where
  id : UUID
  name : String
  district_id : UUID
deriving Repr, DecidableEq

/-- The backing store: the database tables as lists of rows. -/
structure Store where
  users : List User
  programmes : List Programme
  programme_updates : List ProgrammeUpdateRow
  districts : List District
  divisions : List Division
deriving Repr

/-- The five recognized programme status values
(`models.py`: received, assigned, in_progress, completed, blocked). -/
def validStatuses : List String :=
  ["received", "assigned", "in_progress", "completed", "blocked"]

/-- `schemas.ProgrammeUpdate` — the admin PUT payload.  Every field is
`Optional` in the source; `model_dump(exclude_unset=True)` drops the
fields the client did not provide, so each field is modelled as an
`Option` whose `none` means "not provided".  (A field explicitly
provided as JSON null is conflated with "not provided" here; the claims
settled below only exercise non-null provided values, where the model
and the source agree.) -/
structure ProgrammeUpdateIn where
  title : Option String := none
  description : Option String := none
  due_date : Option Nat := none
  priority : Option String := none
  portfolio_id : Option UUID := none
  frequency : Option String := none
  scope : Option String := none
  assigned_districts : Option (List UUID) := none
  assigned_divisions : Option (List UUID) := none
  status : Option String := none
  remarks : Option String := none
  attachments : Option (List AttachmentSchema) := none
deriving Repr

/-- `schemas.ProgrammeUpdateCreate` — the payload for appending an
activity update. -/
structure ProgrammeUpdateCreate where
  type : String
  content : Option String
  attachments : List AttachmentSchema
  programme_id : UUID
deriving Repr

/-! ## CRUD layer (`crud.py`) -/

/-- `crud.get_user_by_username`: first user row matching the username. -/
def get_user_by_username (db : Store) (username : String) : Option User :=
  (db.users.filter (fun u => u.username == username)).head?

/-- The errors an embedded call can surface.  `valueError` models an
unhandled Python `ValueError` escaping the call (it is not an HTTP
outcome); the others model the `HTTPException`s raised in the source,
carrying the HTTP status code and detail string. -/
inductive CallError where
  | http (status : Nat) (detail : String)
  | valueError (message : String)
deriving Repr, DecidableEq

/-- `crud.get_user_by_id` called with a string id (as `deps.py` does):
`uuid.UUID(user_id)` raises `ValueError` on a string that is not a
UUID; otherwise the first row with that id is returned. -/
def get_user_by_id (db : Store) (user_id : String) : Except CallError (Option User) :=
  match uuidParse user_id with
  | none => .error (.valueError ("badly formed UUID string: " ++ user_id))
  | some uid => .ok ((db.users.filter (fun u => u.id == uid)).head?)

/-- `crud.get_programme_by_id`: first programme row with the id. -/
def get_programme_by_id (db : Store) (programme_id : UUID) : Option Programme :=
  (db.programmes.filter (fun p => p.id == programme_id)).head?

/-- PostgreSQL array containment `arr @> ARRAY[x]` on a nullable
`uuid[]` column with a possibly-NULL element: a NULL on either side is
not TRUE, so the row does not match. -/
def arrayContains (arr : Option (List UUID)) (x : Option UUID) : Bool :=
  match arr, x with
  | some a, some v => a.contains v
  | _, _ => false

/-- `a` precedes (or ties) `b` under
`order_by(Programme.due_date.desc())`: PostgreSQL DESC puts larger
dates first and NULLs before every value.  Membership in the result
(all any claim below needs) is independent of this key. -/
def dueDateDescLEb (a b : Programme) : Bool :=
  match a.due_date, b.due_date with
  | none, _ => true
  | some _, none => false
  | some da, some db' => decide (db' ≤ da)

/-- Propositional form of `dueDateDescLEb` for `List.insertionSort`. -/
def dueDateDescLE (a b : Programme) : Prop := dueDateDescLEb a b = true

instance : DecidableRel dueDateDescLE :=
  fun a b => inferInstanceAs (Decidable (dueDateDescLEb a b = true))

/-- `.offset(skip).limit(limit)` applied to an ordered row list. -/
def paginate (rows : List Programme) (skip limit : Nat) : List Programme :=
  (rows.drop skip).take limit

/-- `crud.get_programmes`, the Scope Engine.

The `district` branch builds the filter

    Programme.assigned_districts.contains([user.district_id]) |
    Programme.assigned_divisions.overlap(Programme.scope == 'district')

whose second disjunct hands a boolean expression (`scope = 'district'`)
to the array-overlap operator: the rendered SQL `assigned_divisions &&
(scope = 'district')` compares `uuid[] && boolean`, an operator pair
PostgreSQL does not define, so executing the district-branch query
fails at the database with an undefined-operator error (the source
comments there concede "This part would need a subquery … A better way
is needed here").  That database failure is embedded as `.error`. -/
def get_programmes (db : Store) (user : UserRead) (skip : Nat) (limit : Nat) :
    Except CallError (List Programme) :=
  if user.role == "admin" then
    -- Admin sees all
    .ok (paginate ((db.programmes.insertionSort dueDateDescLE)) skip limit)
  else if user.role == "district" then
    -- uuid[] && boolean has no operator: the query errors at execution
    .error (.http 500 "operator does not exist: uuid[] && boolean")
  else if user.role == "division" then
    -- Division user sees only programmes assigned to their division
    .ok (paginate (((db.programmes.filter
            (fun p => arrayContains p.assigned_divisions user.division_id)).insertionSort
          dueDateDescLE)) skip limit)
  else
    -- No role? No programmes.
    .ok []

/-- `crud.update_programme`: `model_dump(exclude_unset=True)` followed
by `setattr` for each provided field — every provided field is written
onto the row, the rest keep their values. -/
def update_programme (p : Programme) (updates : ProgrammeUpdateIn) : Programme :=
  { p with
    title := updates.title.getD p.title
    description := match updates.description with
      | some d => some d | none => p.description
    due_date := match updates.due_date with
      | some d => some d | none => p.due_date
    priority := updates.priority.getD p.priority
    portfolio_id := match updates.portfolio_id with
      | some x => some x | none => p.portfolio_id
    frequency := updates.frequency.getD p.frequency
    scope := updates.scope.getD p.scope
    assigned_districts := match updates.assigned_districts with
      | some a => some a | none => p.assigned_districts
    assigned_divisions := match updates.assigned_divisions with
      | some a => some a | none => p.assigned_divisions
    status := updates.status.getD p.status
    remarks := match updates.remarks with
      | some r => some r | none => p.remarks
    attachments := updates.attachments.getD p.attachments }

/-- Store-level `update_programme`: the commit writes the updated row
back to the programme's row in the table. -/
def update_programme_in_store (db : Store) (p : Programme) (updates : ProgrammeUpdateIn) :
    Store :=
  { db with programmes := (db.programmes.map
      (fun q => if q.id == p.id then update_programme q updates else q)) }

/-- `crud.create_programme_update`, the Activity Ledger append.  The new
row is added, then — when `type == 'status_change'` and `content` is
truthy — the parent programme's `status` column is set to `content`
(unconditionally: no membership check against the recognized status
values), and everything commits as one unit of work.  `new_id`/`now`
stand for the generated row id and `created_at` timestamp. -/
def create_programme_update (db : Store) (update : ProgrammeUpdateCreate)
    (user_id : UUID) (new_id : UUID) (now : Nat) : Store × ProgrammeUpdateRow :=
  let db_update : ProgrammeUpdateRow :=
    { id := new_id, programme_id := update.programme_id, user_id := user_id,
      type := update.type, content := update.content,
      attachments := update.attachments, created_at := now }
  let db₁ : Store := { db with programme_updates := db.programme_updates ++ [db_update] }
  -- Also update the parent programme's status if included
  let db₂ : Store :=
    if update.type == "status_change" && strTruthy update.content then
      match get_programme_by_id db₁ update.programme_id with
      | some _ =>
          { db₁ with programmes := (db₁.programmes.map
              (fun p => if p.id == update.programme_id then
                  { p with status := update.content.getD p.status } else p)) }
      | none => db₁
    else db₁
  (db₂, db_update)

/-- `crud.get_programme_updates`: the activity feed of a programme,
ordered by `created_at` ascending. -/
def get_programme_updates (db : Store) (programme_id : UUID) : List ProgrammeUpdateRow :=
  (db.programme_updates.filter (fun u => u.programme_id == programme_id)).insertionSort
    (fun a b => a.created_at ≤ b.created_at)

/-! ## Token Service (`core/security.py`)

The `python-jose` HMAC layer is modelled with perfect cryptography: an
encoded token records its payload, its `exp` claim and the key it was
signed with; decoding with a key succeeds exactly when that key equals
the signing key (forging a signature is impossible in the model), and
an otherwise valid token whose `exp` lies strictly in the past raises
`ExpiredSignatureError` (jose rejects when `exp < now`). -/

/-- The claim dictionary passed to `jwt.encode` (the `token_data` dict
built at login: `sub`, `id`, `role`; absent keys are `none`, matching
`payload.get(...)` returning `None`). -/
structure JWTClaims where
  sub : Option String
  id : Option String
  role : Option String
deriving Repr, DecidableEq

/-- An encoded token (`jwt.encode(to_encode, secret_key, algorithm)`):
the claims, the embedded `exp` (seconds), and the signing key. -/
structure EncodedJWT where
  claims : JWTClaims
  exp : Nat
  signing_key : String
deriving Repr, DecidableEq

/-- The failures `jose.jwt.decode` can raise (both are subclasses of
`JWTError`, which `verify_token` catches). -/
inductive JoseError where
  | invalidSignature
  | expiredSignature
deriving Repr, DecidableEq

/-- `jose.jwt.decode(token, key, algorithms)` at time `now`: signature
check against `key`, then the `exp` claim (strict: expired once the
current time exceeds `exp`). -/
def jwtDecode (token : EncodedJWT) (key : String) (now : Nat) :
    Except JoseError JWTClaims :=
  if key ≠ token.signing_key then .error .invalidSignature
  else if token.exp < now then .error .expiredSignature
  else .ok token.claims

/-- `schemas.TokenData`. -/
structure TokenData where
  username : Option String
  user_id : String
  role : String
deriving Repr, DecidableEq

/-- The relevant `core/config.py` defaults. -/
def ACCESS_TOKEN_EXPIRE_MINUTES : Nat := 30

/-- `REFRESH_TOKEN_EXPIRE_DAYS` default. -/
def REFRESH_TOKEN_EXPIRE_DAYS : Nat := 7

/-- `security.JWTManager`: the two signing secrets and the algorithm. -/
structure JWTManager where
  SECRET_KEY : String
  REFRESH_SECRET_KEY : String
  ALGORITHM : String
deriving Repr

/-- `JWTManager._create_token`: copy the claims, set `exp = now +
expires_delta`, sign with the given key.  `expires_delta` is in
seconds. -/
def JWTManager.createToken (_m : JWTManager) (data : JWTClaims)
    (expires_delta : Nat) (secret_key : String) (now : Nat) : EncodedJWT :=
  { claims := data, exp := now + expires_delta, signing_key := secret_key }

/-- `JWTManager.create_access_token`: default window
`ACCESS_TOKEN_EXPIRE_MINUTES` minutes when no delta is supplied. -/
def JWTManager.createAccessToken (m : JWTManager) (data : JWTClaims)
    (expires_delta : Option Nat) (now : Nat) : EncodedJWT :=
  let delta := match expires_delta with
    | some d => d
    | none => ACCESS_TOKEN_EXPIRE_MINUTES * 60
  m.createToken data delta m.SECRET_KEY now

/-- `JWTManager.create_refresh_token`: fixed window of
`REFRESH_TOKEN_EXPIRE_DAYS` days, signed with the refresh secret. -/
def JWTManager.createRefreshToken (m : JWTManager) (data : JWTClaims)
    (now : Nat) : EncodedJWT :=
  m.createToken data (REFRESH_TOKEN_EXPIRE_DAYS * 24 * 60 * 60) m.REFRESH_SECRET_KEY now

/-- `JWTManager.verify_token`: decode, then require the `id` and `role`
claims; every `JWTError` (bad signature, expired) and the
missing-claims case collapse to `none`. -/
def JWTManager.verifyToken (_m : JWTManager) (token : EncodedJWT)
    (secret_key : String) (now : Nat) : Option TokenData :=
  match jwtDecode token secret_key now with
  | .error _ => none          -- Token is invalid or expired
  | .ok payload =>
    match payload.id, payload.role with
    | some user_id, some role =>
        some { username := payload.sub, user_id := user_id, role := role }
    | _, _ => none            -- Invalid payload structure

/-- `JWTManager.verify_access_token`. -/
def JWTManager.verifyAccessToken (m : JWTManager) (token : EncodedJWT)
    (now : Nat) : Option TokenData :=
  m.verifyToken token m.SECRET_KEY now

/-- `JWTManager.verify_refresh_token`. -/
def JWTManager.verifyRefreshToken (m : JWTManager) (token : EncodedJWT)
    (now : Nat) : Option TokenData :=
  m.verifyToken token m.REFRESH_SECRET_KEY now

/-- Modelled from the spec: the password store is an external
collaborator, "treated as an opaque one-way hash/verify pair"
(`passlib` bcrypt in the source).  The model makes the pair perfect:
`verify_password plain hashed` holds exactly when `hashed` is the hash
of `plain`. -/
def get_password_hash (password : String) : String :=
  "bcrypt$" ++ password

/-- `security.verify_password` over the modelled hash pair. -/
def verify_password (plain_password : String) (hashed_password : String) : Bool :=
  hashed_password == get_password_hash plain_password

/-! ## Identity Resolver (`deps.py`) -/

/-- `deps.get_current_user`: verify the presented bearer token as an
access token; on success look the user up by the embedded id; raise the
401 `credentials_exception` when the token fails verification, when no
user row exists, or when the user is inactive.  The `ValueError` that
`uuid.UUID` raises inside `crud.get_user_by_id` on a malformed id
string is not caught anywhere on this path, so it propagates. -/
def get_current_user (m : JWTManager) (db : Store) (token : EncodedJWT)
    (now : Nat) : Except CallError UserRead :=
  let credentials_exception : CallError := .http 401 "Could not validate credentials"
  match m.verifyAccessToken token now with
  | none => .error credentials_exception
  | some token_data =>
    match get_user_by_id db token_data.user_id with
    | .error e => .error e            -- unhandled ValueError escapes
    | .ok none => .error credentials_exception
    | .ok (some user) =>
        if !user.active then .error credentials_exception
        else .ok (toUserRead user)

/-- `deps.get_current_admin_user`: 403 unless the resolved user's role
is `admin`. -/
def get_current_admin_user (m : JWTManager) (db : Store) (token : EncodedJWT)
    (now : Nat) : Except CallError UserRead :=
  match get_current_user m db token now with
  | .error e => .error e
  | .ok current_user =>
      if current_user.role ≠ "admin" then
        .error (.http 403 "The user does not have administrative privileges")
      else .ok current_user

/-! ## Login (`api/auth.py`) -/

/-- The body returned by a successful login. -/
structure TokenResponse where
  access_token : EncodedJWT
  refresh_token : EncodedJWT
  token_type : String
  user : UserRead
deriving Repr, DecidableEq

/-- `auth.login_for_access_token`: look the user up by username; reject
unknown username or wrong password with one generic 401; reject an
inactive user with a distinct 400 "Inactive user"; otherwise issue both
tokens over `{sub: username, id: str(user.id), role: user.role}`.
(The `last_login` timestamp write on the user row is bookkeeping no
claim touches and is omitted from the returned value.) -/
def login_for_access_token (m : JWTManager) (db : Store)
    (username password : String) (now : Nat) : Except CallError TokenResponse :=
  match get_user_by_username db username with
  | none => .error (.http 401 "Incorrect username or password")
  | some user =>
    if !verify_password password user.password_hash then
      .error (.http 401 "Incorrect username or password")
    else if !user.active then
      .error (.http 400 "Inactive user")
    else
      let token_data : JWTClaims :=
        { sub := some user.username, id := some (uuidToString user.id),
          role := some user.role }
      .ok { access_token := m.createAccessToken token_data none now,
            refresh_token := m.createRefreshToken token_data now,
            token_type := "bearer",
            user := toUserRead user }

/-! ## Programme endpoints (`api/programmes.py`) -/

/-- `programmes.read_programme` (GET `/{programme_id}`), with the
current user already resolved by the `get_current_user` dependency.
The handler checks only existence; the role-based access check is a
`TODO` in the source, so the resolved user is never consulted. -/
def read_programme (db : Store) (programme_id : UUID)
    (_current_user : UserRead) : Except CallError Programme :=
  match get_programme_by_id db programme_id with
  | none => .error (.http 404 "Programme not found")
  | some programme => .ok programme

/-- `programmes.update_existing_programme` (PUT `/{programme_id}`),
after the `get_current_admin_user` dependency has admitted the caller:
404 when the programme does not exist, otherwise apply
`crud.update_programme` and return the updated row. -/
def update_existing_programme (db : Store) (programme_id : UUID)
    (programme_in : ProgrammeUpdateIn) : Except CallError (Store × Programme) :=
  match get_programme_by_id db programme_id with
  | none => .error (.http 404 "Programme not found")
  | some programme =>
      .ok (update_programme_in_store db programme programme_in,
           update_programme programme programme_in)

/-- `programmes.read_programme_updates` (GET `/{programme_id}/updates`):
returns the full feed; the permission check is a `TODO` in the source,
so the resolved user is never consulted. -/
def read_programme_updates (db : Store) (programme_id : UUID)
    (_current_user : UserRead) : List ProgrammeUpdateRow :=
  get_programme_updates db programme_id

/-- `programmes.add_programme_update` (POST `/{programme_id}/updates`):
400 when the URL and body programme ids disagree, otherwise the
Activity Ledger append (`crud.create_programme_update`). -/
def add_programme_update (db : Store) (programme_id : UUID)
    (update_in : ProgrammeUpdateCreate) (current_user : UserRead)
    (new_id : UUID) (now : Nat) : Except CallError (Store × ProgrammeUpdateRow) :=
  if programme_id ≠ update_in.programme_id then
    .error (.http 400 "Programme ID in URL and body do not match.")
  else
    .ok (create_programme_update db update_in current_user.id new_id now)

/-! ## Concrete fixtures (used by witnesses and counterexamples) -/

/-- A manager with distinct access/refresh secrets, as `config.py`
requires two separate settings. -/
def mgr : JWTManager :=
  { SECRET_KEY := "access-secret", REFRESH_SECRET_KEY := "refresh-secret",
    ALGORITHM := "HS256" }

/-- An active admin row. -/
def adminUser : User :=
  { id := 7, username := "alice", password_hash := get_password_hash "pw",
    name := "Alice", role := "admin", active := true,
    district_id := none, division_id := none }

/-- A programme assigned to division 10, status `received`. -/
def baseProgramme : Programme :=
  { id := 1, title := "Census outreach", description := none,
    created_by_user := 7, created_at := 0, due_date := some 1000,
    priority := "medium", portfolio_id := none, frequency := "one-time",
    scope := "district", assigned_districts := some [],
    assigned_divisions := some [10], status := "received",
    is_active := true, remarks := none, attachments := [] }

/-- A one-user, one-programme store. -/
def storeOne : Store :=
  { users := [adminUser], programmes := [baseProgramme],
    programme_updates := [], districts := [], divisions := [] }

/-- A division-role reader affiliated with division 10. -/
def divisionUser : UserRead :=
  { id := 5, username := "dora", name := "Dora", role := "division",
    active := true, district_id := none, division_id := some 10 }

/-- A division-role reader affiliated with division 99 (not assigned to
`baseProgramme`). -/
def outsiderUser : UserRead :=
  { id := 4, username := "omar", name := "Omar", role := "division",
    active := true, district_id := none, division_id := some 99 }

/-! ## C1 — status changes only through the Activity Ledger -/

/-- A PUT payload that sets only the status field. -/
def updStatusCompleted : ProgrammeUpdateIn := { status := some "completed" }

/-- C1 counterexample: the admin programme-update operation
(`update_existing_programme` → `crud.update_programme`) writes a
provided `status` straight onto the row — `baseProgramme` has status
`received`, yet the admin PUT with payload `{status: "completed"}`
returns it with status `completed`, so the engine does let `status`
change outside the `status_change` ledger path. -/
theorem c1_admin_update_changes_status :
    baseProgramme.status = "received" ∧
    update_existing_programme storeOne 1 updStatusCompleted =
      .ok ({ storeOne with programmes := [{ baseProgramme with status := "completed" }] },
           { baseProgramme with status := "completed" }) :=
  ⟨rfl, rfl⟩

/-- **C1** (amended): a programme's `status` is preserved by the admin
programme-update operation whenever the PUT payload leaves the `status`
field unset, and by every Activity Ledger append whose kind is not
`status_change`; only a payload that explicitly sets `status` (or a
`status_change` append) can change it. -/
theorem c1_status_preserved_when_not_set
    (p : Programme) (u : ProgrammeUpdateIn) (hu : u.status = none)
    (db : Store) (upd : ProgrammeUpdateCreate) (ht : upd.type ≠ "status_change")
    (user_id new_id now : UUID) :
    (update_programme p u).status = p.status ∧
    (create_programme_update db upd user_id new_id now).1.programmes.map
        (fun q => q.status) = db.programmes.map (fun q => q.status) := by
  constructor
  · simp [update_programme, hu]
  · have hb : (upd.type == "status_change") = false := beq_eq_false_iff_ne.mpr ht
    simp [create_programme_update, hb]

/-- C1 witness: the amended statement applied to `baseProgramme` with
an empty PUT payload and to a `comment`-kind ledger append on
`storeOne`. -/
theorem c1_witness :
    (update_programme baseProgramme {}).status = baseProgramme.status ∧
    (create_programme_update storeOne
        { type := "comment", content := some "on track",
          attachments := [], programme_id := 1 } 7 99 5).1.programmes.map
        (fun q => q.status) = storeOne.programmes.map (fun q => q.status) :=
  c1_status_preserved_when_not_set baseProgramme {} rfl storeOne
    { type := "comment", content := some "on track",
      attachments := [], programme_id := 1 } (by decide) 7 99 5

/-! ## C2 — unrecognized status values on `status_change` appends -/

/-- A `status_change` append whose content is not a recognized status. -/
def badStatusUpd : ProgrammeUpdateCreate :=
  { type := "status_change", content := some "not_a_real_status",
    attachments := [], programme_id := 1 }

/-- C2 counterexample: appending a `status_change` whose content is
`"not_a_real_status"` (not one of the five recognized values) is NOT
rejected — `crud.create_programme_update` appends the ledger row and
overwrites the programme's status with the unrecognized string. -/
theorem c2_unrecognized_status_written :
    "not_a_real_status" ∉ validStatuses ∧
    storeOne.programmes.map (fun p => p.status) = ["received"] ∧
    (create_programme_update storeOne badStatusUpd 7 99 5).1.programme_updates.length
      = storeOne.programme_updates.length + 1 ∧
    (create_programme_update storeOne badStatusUpd 7 99 5).1.programmes.map
      (fun p => p.status) = ["not_a_real_status"] :=
  ⟨by decide, rfl, rfl, rfl⟩

/-- **C2** (amended): for every `status_change` append with non-empty
content on an existing programme, the engine appends the ledger row and
unconditionally writes the content into the programme's `status` —
recognized or not; no `InvalidStatusValue` rejection exists in the
code. -/
theorem c2_status_change_writes_unconditionally
    (db : Store) (upd : ProgrammeUpdateCreate) (user_id new_id now : UUID)
    (c : String) (p : Programme)
    (htype : upd.type = "status_change") (hc : upd.content = some c) (hne : c ≠ "")
    (hp : get_programme_by_id db upd.programme_id = some p) :
    (create_programme_update db upd user_id new_id now).1.programme_updates
      = db.programme_updates ++
          [{ id := new_id, programme_id := upd.programme_id, user_id := user_id,
             type := upd.type, content := upd.content,
             attachments := upd.attachments, created_at := now }] ∧
    (create_programme_update db upd user_id new_id now).1.programmes
      = db.programmes.map
          (fun q => if q.id == upd.programme_id then { q with status := c } else q) := by
  have hemp : c.isEmpty = false := by
    rw [Bool.eq_false_iff]
    intro hh
    exact hne ((String.isEmpty_iff c).mp hh)
  have hst : strTruthy (some c) = true := by
    simp [strTruthy, hemp]
  -- `get_programme_by_id` only reads `.programmes`, so the pending
  -- ledger insert does not disturb the lookup
  have hp' : get_programme_by_id
      { db with programme_updates := db.programme_updates ++
          [{ id := new_id, programme_id := upd.programme_id, user_id := user_id,
             type := "status_change", content := some c,
             attachments := upd.attachments, created_at := now }] }
      upd.programme_id = some p := hp
  simp [create_programme_update, hc, htype, hst, hp']

/-- C2 witness: the amended statement applied to `storeOne` and the
`"not_a_real_status"` append. -/
theorem c2_witness :
    (create_programme_update storeOne badStatusUpd 7 99 5).1.programme_updates
      = storeOne.programme_updates ++
          [{ id := 99, programme_id := badStatusUpd.programme_id, user_id := 7,
             type := badStatusUpd.type, content := badStatusUpd.content,
             attachments := badStatusUpd.attachments, created_at := 5 }] ∧
    (create_programme_update storeOne badStatusUpd 7 99 5).1.programmes
      = storeOne.programmes.map
          (fun q => if q.id == badStatusUpd.programme_id then
              { q with status := "not_a_real_status" } else q) :=
  c2_status_change_writes_unconditionally storeOne badStatusUpd 7 99 5
    "not_a_real_status" baseProgramme rfl rfl (by decide) rfl

/-! ## C3 — district-role scoping -/

/-- District 100. -/
def districtNorth : District := { id := 100, name := "North" }

/-- Division 200, administratively contained in district 100. -/
def divisionNorthA : Division := { id := 200, name := "North-A", district_id := 100 }

/-- A district-role reader affiliated with district 100. -/
def districtUser : UserRead :=
  { id := 3, username := "dina", name := "Dina", role := "district",
    active := true, district_id := some 100, division_id := none }

/-- A programme in `all_divisions` scope mode, assigned to division 200
(which lies under district 100) but to no district directly: under the
claimed closure semantics it must be visible to `districtUser`. -/
def progAllDivisions : Programme :=
  { baseProgramme with
    id := 2, scope := "all_divisions",
    assigned_districts := some [], assigned_divisions := some [200] }

/-- Store for the district-scoping scenario. -/
def storeDistrict : Store :=
  { users := [adminUser], programmes := [progAllDivisions],
    programme_updates := [], districts := [districtNorth],
    divisions := [divisionNorthA] }

/-- C3: the failing input is a district-100 actor and a programme in
`all_divisions` scope mode assigned to division 200 ⊆ district 100 —
the claim makes it visible, but `crud.get_programmes`'s district branch
compares `assigned_divisions && (scope = 'district')` (`uuid[]` against
`boolean`), an operator PostgreSQL does not define, so the query errors
and no programme (visible or not) is ever returned; the
district→division closure (`storeDistrict.divisions`) is never
consulted. -/
theorem c3_district_scope_query_fails :
    divisionNorthA.district_id = 100 ∧
    districtUser.district_id = some 100 ∧
    progAllDivisions.scope = "all_divisions" ∧
    divisionNorthA.id ∈ progAllDivisions.assigned_divisions.getD [] ∧
    100 ∉ progAllDivisions.assigned_districts.getD [] ∧
    get_programmes storeDistrict districtUser 0 100 =
      .error (.http 500 "operator does not exist: uuid[] && boolean") :=
  ⟨rfl, rfl, rfl, by decide, by decide, rfl⟩

/-! ## C4 — division-role visibility -/

/-- **C4**: for a `division`-role actor affiliated with division `d`,
with the whole store on one page (`skip = 0`, `limit` at least the
table size), a programme is in the `get_programmes` result exactly when
it is in the store and `d` is a member of its `assigned_divisions` —
no false positives, no false negatives. -/
theorem arrayContains_some_iff (arr : Option (List UUID)) (d : UUID) :
    arrayContains arr (some d) = true ↔ d ∈ arr.getD [] := by
  cases arr with
  | none => simp [arrayContains]
  | some a => simp [arrayContains, List.elem_iff]

theorem c4_division_visibility
    (db : Store) (u : UserRead) (d : UUID) (limit : Nat)
    (hrole : u.role = "division") (haff : u.division_id = some d)
    (hlim : db.programmes.length ≤ limit) (p : Programme) :
    (∃ l, get_programmes db u 0 limit = .ok l ∧ p ∈ l) ↔
      p ∈ db.programmes ∧ d ∈ p.assigned_divisions.getD [] := by
  have hfilterlen :
      (db.programmes.filter
        (fun q => arrayContains q.assigned_divisions u.division_id)).length ≤ limit :=
    le_trans (List.length_filter_le _ _) hlim
  have hsortlen :
      ((db.programmes.filter
          (fun q => arrayContains q.assigned_divisions u.division_id)).insertionSort
        dueDateDescLE).length ≤ limit := by
    rw [List.length_insertionSort]
    exact hfilterlen
  constructor
  · rintro ⟨l, hl, hpl⟩
    rw [get_programmes] at hl
    simp only [hrole] at hl
    rw [if_neg (by decide), if_neg (by decide), if_pos (by decide)] at hl
    rw [paginate, List.drop_zero, List.take_of_length_le hsortlen] at hl
    injection hl with hl
    subst hl
    have hins := (List.mem_insertionSort dueDateDescLE).mp hpl
    have hmem := List.mem_filter.mp hins
    refine ⟨hmem.1, ?_⟩
    have hc := hmem.2
    rw [haff] at hc
    exact (arrayContains_some_iff p.assigned_divisions d).mp hc
  · rintro ⟨hmem, hd⟩
    refine ⟨(db.programmes.filter
        (fun q => arrayContains q.assigned_divisions u.division_id)).insertionSort
        dueDateDescLE, ?_, ?_⟩
    · rw [get_programmes]
      simp only [hrole]
      rw [if_neg (by decide), if_neg (by decide), if_pos (by decide)]
      rw [paginate, List.drop_zero, List.take_of_length_le hsortlen]
    · refine (List.mem_insertionSort dueDateDescLE).mpr ?_
      refine List.mem_filter.mpr ⟨hmem, ?_⟩
      rw [haff]
      exact (arrayContains_some_iff p.assigned_divisions d).mpr hd

/-- C4 witness: `divisionUser` (division 10) sees `baseProgramme`
(assigned to division 10) in `storeOne`. -/
theorem c4_witness :
    ∃ l, get_programmes storeOne divisionUser 0 100 = .ok l ∧ baseProgramme ∈ l :=
  (c4_division_visibility storeOne divisionUser 10 100 rfl rfl (by decide)
    baseProgramme).mpr ⟨by decide, by decide⟩

/-! ## C5 — per-programme reads skip the visibility predicate -/

/-- A feed row on programme 1. -/
def feedRow : ProgrammeUpdateRow :=
  { id := 50, programme_id := 1, user_id := 7, type := "comment",
    content := some "on track", attachments := [], created_at := 3 }

/-- `storeOne` with one activity row. -/
def storeFeed : Store := { storeOne with programme_updates := [feedRow] }

/-- C5: `outsiderUser` (division 99) does not satisfy the visibility
predicate for `baseProgramme` (assigned to division 10 only), yet both
`read_programme` and `read_programme_updates` hand the programme's data
back — the handlers check only existence (the role-based access check
is a `TODO` in the source), so non-admin scoping is not applied on
by-id reads. -/
theorem c5_read_ignores_visibility :
    outsiderUser.role = "division" ∧
    arrayContains baseProgramme.assigned_divisions outsiderUser.division_id = false ∧
    read_programme storeFeed 1 outsiderUser = .ok baseProgramme ∧
    read_programme_updates storeFeed 1 outsiderUser = [feedRow] :=
  ⟨rfl, by decide, rfl, rfl⟩

/-! ## C6 — access-token round trip and expiry -/

/-- The claims of `adminUser`'s login. -/
def claimsAlice : JWTClaims :=
  { sub := some "alice", id := some "7", role := some "admin" }

/-- **C6**: issuing an access token over claims carrying an id and a
role (the default 30-minute window), then verifying it, recovers
exactly that subject id and role as long as verification happens before
the window elapses; once the window has elapsed, the decode fails with
`ExpiredSignatureError` (surfaced by `verify_token` as the collapsed
`none`). -/
theorem c6_access_token_roundtrip
    (m : JWTManager) (data : JWTClaims) (uid role : String) (t₁ t₂ : Nat)
    (hid : data.id = some uid) (hrole : data.role = some role) :
    (t₂ < t₁ + ACCESS_TOKEN_EXPIRE_MINUTES * 60 →
      m.verifyAccessToken (m.createAccessToken data none t₁) t₂ =
        some { username := data.sub, user_id := uid, role := role }) ∧
    (t₁ + ACCESS_TOKEN_EXPIRE_MINUTES * 60 < t₂ →
      jwtDecode (m.createAccessToken data none t₁) m.SECRET_KEY t₂ =
        .error .expiredSignature ∧
      m.verifyAccessToken (m.createAccessToken data none t₁) t₂ = none) := by
  constructor
  · intro h
    have hne : ¬ (t₁ + ACCESS_TOKEN_EXPIRE_MINUTES * 60 < t₂) := by omega
    simp [JWTManager.verifyAccessToken, JWTManager.verifyToken,
          JWTManager.createAccessToken, JWTManager.createToken, jwtDecode,
          hne, hid, hrole]
  · intro h
    constructor
    · simp [JWTManager.createAccessToken, JWTManager.createToken, jwtDecode, h]
    · simp [JWTManager.verifyAccessToken, JWTManager.verifyToken,
            JWTManager.createAccessToken, JWTManager.createToken, jwtDecode, h]

/-- C6 witness: Alice's claims, issued at time 0, verify at time 10 and
are expired at time 2000 (> 1800 s = 30 min). -/
theorem c6_witness :
    mgr.verifyAccessToken (mgr.createAccessToken claimsAlice none 0) 10 =
      some { username := some "alice", user_id := "7", role := "admin" } ∧
    jwtDecode (mgr.createAccessToken claimsAlice none 0) mgr.SECRET_KEY 2000 =
      .error .expiredSignature :=
  ⟨(c6_access_token_roundtrip mgr claimsAlice "7" "admin" 0 10 rfl rfl).1 (by decide),
   ((c6_access_token_roundtrip mgr claimsAlice "7" "admin" 0 2000 rfl rfl).2
      (by decide)).1⟩

/-! ## C7 — refresh tokens never pass access verification -/

/-- **C7**: when the access and refresh signing secrets differ, a token
issued by `create_refresh_token` never verifies as an access token, and
an access token never verifies as a refresh token — whatever the claims
and whichever times issuance and verification happen at. -/
theorem c7_refresh_token_never_access
    (m : JWTManager) (data : JWTClaims) (t₁ t₂ : Nat)
    (h : m.SECRET_KEY ≠ m.REFRESH_SECRET_KEY) :
    m.verifyAccessToken (m.createRefreshToken data t₁) t₂ = none ∧
    m.verifyRefreshToken (m.createAccessToken data none t₁) t₂ = none := by
  constructor
  · simp [JWTManager.verifyAccessToken, JWTManager.verifyToken,
          JWTManager.createRefreshToken, JWTManager.createToken, jwtDecode, h]
  · simp [JWTManager.verifyRefreshToken, JWTManager.verifyToken,
          JWTManager.createAccessToken, JWTManager.createToken, jwtDecode,
          Ne.symm h]

/-- C7 witness: with `mgr`'s distinct secrets, Alice's refresh token is
rejected by access verification at issuance time. -/
theorem c7_witness :
    mgr.verifyAccessToken (mgr.createRefreshToken claimsAlice 0) 0 = none :=
  (c7_refresh_token_never_access mgr claimsAlice 0 0 (by decide)).1

/-! ## C8 — identity resolution re-checks the live actor record -/

/-- **C8**: `get_current_user` returns an actor only when the token
verifies as access-class and the live row looked up by the embedded
subject id exists with `active = true`; and whenever the token verifies
but the row is missing or inactive, resolution fails with the 401
credentials outcome even though the token itself is valid. -/
theorem c8_resolution_checks_live_record
    (m : JWTManager) (db : Store) (tok : EncodedJWT) (now : Nat) :
    (∀ ur, get_current_user m db tok now = .ok ur →
      ∃ td user, m.verifyAccessToken tok now = some td ∧
        get_user_by_id db td.user_id = .ok (some user) ∧
        user.active = true ∧ ur = toUserRead user) ∧
    (∀ td, m.verifyAccessToken tok now = some td →
      (get_user_by_id db td.user_id = .ok none ∨
        ∃ user, get_user_by_id db td.user_id = .ok (some user) ∧ user.active = false) →
      get_current_user m db tok now =
        .error (.http 401 "Could not validate credentials")) := by
  constructor
  · intro ur hur
    cases hv : m.verifyAccessToken tok now with
    | none =>
      have hc : get_current_user m db tok now =
          .error (.http 401 "Could not validate credentials") := by
        rw [get_current_user, hv]
      rw [hc] at hur
      exact absurd hur (by simp)
    | some td =>
      cases hu : get_user_by_id db td.user_id with
      | error e =>
        have hc : get_current_user m db tok now = .error e := by
          simp [get_current_user, hv, hu]
        rw [hc] at hur
        exact absurd hur (by simp)
      | ok ou =>
        cases ou with
        | none =>
          have hc : get_current_user m db tok now =
              .error (.http 401 "Could not validate credentials") := by
            simp [get_current_user, hv, hu]
          rw [hc] at hur
          exact absurd hur (by simp)
        | some user =>
          cases hact : user.active with
          | false =>
            have hc : get_current_user m db tok now =
                .error (.http 401 "Could not validate credentials") := by
              simp [get_current_user, hv, hu, hact]
            rw [hc] at hur
            exact absurd hur (by simp)
          | true =>
            have hc : get_current_user m db tok now = .ok (toUserRead user) := by
              simp [get_current_user, hv, hu, hact]
            rw [hc] at hur
            refine ⟨td, user, rfl, hu, hact, ?_⟩
            injection hur with h
            exact h.symm
  · intro td hv hbad
    rcases hbad with hnone | ⟨user, hsome, hinact⟩
    · simp [get_current_user, hv, hnone]
    · simp [get_current_user, hv, hsome, hinact]

/-- An inactive division user. -/
def bobUser : User :=
  { id := 8, username := "bob", password_hash := get_password_hash "pw2",
    name := "Bob", role := "division", active := false,
    district_id := none, division_id := some 10 }

/-- `storeOne` plus the deactivated `bobUser`. -/
def storeWithBob : Store := { storeOne with users := [adminUser, bobUser] }

/-- A well-signed, unexpired access token for the deactivated Bob. -/
def bobToken : EncodedJWT :=
  mgr.createAccessToken
    { sub := some "bob", id := some "8", role := some "division" } none 0

/-- C8 witness: Bob's token verifies, but because his row has
`active = false` the resolver still answers the 401 outcome. -/
theorem c8_witness :
    get_current_user mgr storeWithBob bobToken 0 =
      .error (.http 401 "Could not validate credentials") :=
  (c8_resolution_checks_live_record mgr storeWithBob bobToken 0).2
    { username := some "bob", user_id := "8", role := "division" } rfl
    (Or.inr ⟨bobUser, rfl, rfl⟩)

/-! ## C9 — login failure outcomes -/

/-- An inactive user whose password is `pw`. -/
def carolUser : User :=
  { id := 9, username := "carol", password_hash := get_password_hash "pw",
    name := "Carol", role := "division", active := false,
    district_id := none, division_id := some 10 }

/-- A store holding only the deactivated Carol. -/
def storeCarol : Store :=
  { users := [carolUser], programmes := [], programme_updates := [],
    districts := [], divisions := [] }

/-- C9 counterexample: an unknown username and a wrong password both
produce the generic 401 outcome, but logging in as the deactivated
Carol with her correct password produces a distinct 400 "Inactive user"
outcome — the three failure causes do not collapse to one caller-visible
outcome. -/
theorem c9_inactive_outcome_differs :
    login_for_access_token mgr storeCarol "nobody" "pw" 0 =
      .error (.http 401 "Incorrect username or password") ∧
    login_for_access_token mgr storeCarol "carol" "wrong" 0 =
      .error (.http 401 "Incorrect username or password") ∧
    login_for_access_token mgr storeCarol "carol" "pw" 0 =
      .error (.http 400 "Inactive user") ∧
    (CallError.http 400 "Inactive user") ≠ .http 401 "Incorrect username or password" :=
  ⟨rfl, rfl, rfl, by decide⟩

/-- **C9** (amended): unknown-username and wrong-password logins
collapse to the same single generic 401 "Incorrect username or
password" outcome — no distinction is surfaced between those two — but
an actor with `active = false` and correct credentials is rejected with
a distinguishable 400 "Inactive user" outcome, a side channel the
source keeps open. -/
theorem c9_login_failure_outcomes
    (m : JWTManager) (db : Store) (username password : String) (now : Nat) :
    (get_user_by_username db username = none →
      login_for_access_token m db username password now =
        .error (.http 401 "Incorrect username or password")) ∧
    (∀ user, get_user_by_username db username = some user →
      verify_password password user.password_hash = false →
      login_for_access_token m db username password now =
        .error (.http 401 "Incorrect username or password")) ∧
    (∀ user, get_user_by_username db username = some user →
      verify_password password user.password_hash = true →
      user.active = false →
      login_for_access_token m db username password now =
        .error (.http 400 "Inactive user")) := by
  refine ⟨?_, ?_, ?_⟩
  · intro hnone
    simp [login_for_access_token, hnone]
  · intro user hsome hpw
    simp [login_for_access_token, hsome, hpw]
  · intro user hsome hpw hinact
    simp [login_for_access_token, hsome, hpw, hinact]

/-- C9 witness: the amended statement applied to `storeCarol` — the
unknown username `nobody` receives the generic 401 outcome. -/
theorem c9_witness :
    login_for_access_token mgr storeCarol "nobody" "pw" 99 =
      .error (.http 401 "Incorrect username or password") :=
  (c9_login_failure_outcomes mgr storeCarol "nobody" "pw" 99).1 rfl

/-! ## C10 — a well-signed token with an unparseable id claim -/

/-- Claims whose id is not a parseable UUID string. -/
def eveClaims : JWTClaims :=
  { sub := some "eve", id := some "not-a-uuid", role := some "admin" }

/-- A well-signed, unexpired access token over `eveClaims`. -/
def eveToken : EncodedJWT := mgr.createAccessToken eveClaims none 0

/-- **C10**: `eveToken` verifies as an access token (signature good,
unexpired, `id` and `role` claims present), yet identity resolution
does not answer the 401 `Unauthenticated` outcome: the `uuid.UUID`
conversion inside `crud.get_user_by_id` raises an unhandled
`ValueError` that escapes `deps.get_current_user` — the error branch of
resolution is not total over well-signed tokens. -/
theorem c10_unparseable_id_raises :
    mgr.verifyAccessToken eveToken 0 =
      some { username := some "eve", user_id := "not-a-uuid", role := "admin" } ∧
    uuidParse "not-a-uuid" = none ∧
    get_current_user mgr storeOne eveToken 0 =
      .error (.valueError "badly formed UUID string: not-a-uuid") ∧
    (CallError.valueError "badly formed UUID string: not-a-uuid") ≠
      .http 401 "Could not validate credentials" :=
  ⟨rfl, rfl, rfl, by decide⟩

end ProgrammeTracker
